import Mathlib

set_option autoImplicit false

/-!
# Verification of the chat-exporter record-reconstruction engine

Shallow embedding of `src/vscdb.py` (class `VSCDBQuery`) and of the export loop of
`chat.py`, together with proofs of the specification's testable properties.

Conventions of the embedding:

* Python values flowing through the reconstruction code are JSON-like values; they are
  modelled by the inductive `Json`.  Python `None` and JSON `null` are the same object in
  Python (`json.loads("null")` is `None`), so both are modelled by `Json.null`.
* The SQLite layer (`sqlite3`) and the text/JSON decoders (`bytes.decode("utf-8")`,
  `json.loads`) are external library collaborators; a stored database value is modelled by
  the outcome these collaborators produce for it (`Blob`, `JText`), while every decision the
  repository's own code takes on those outcomes is embedded faithfully.
* Exception message texts interpolated from library exceptions (`str(e)`) are abstracted to
  fixed descriptive strings; the repository's own fixed message prefixes are kept verbatim.
* The mutable connection state of a `VSCDBQuery` instance (`self.conn`) is modelled by the
  `connActive` field of `DbState` and threaded explicitly through `query_all_chat_data`.
-/

/-- A JSON-like Python value. `Json.null` models both JSON `null` and Python `None`. -/
inductive Json where
  | null
  | bool (b : Bool)
  | num (n : Int)
  | str (s : String)
  | arr (elems : List Json)
  | obj (fields : List (String × Json))

/-- Association-list lookup used to model Python `dict` access (first matching key). -/
def assocFind : List (String × Json) → String → Option Json
  | [], _ => none
  | (k0, v) :: rest, k => if k0 = k then some v else assocFind rest k

/-- `d.get(k)` when `d` is a dict: `some v` when the key is present, `none` otherwise.
Non-dict values have no keys. -/
def Json.find? : Json → String → Option Json
  | Json.obj fs, k => assocFind fs k
  | _, _ => none

/-- Python `d.get(k)`: the stored value, or `None` when the key is absent.  Because parsed
JSON `null` is Python `None`, an absent key and a stored `null` give the same result. -/
def pyGet (j : Json) (k : String) : Json := (j.find? k).getD Json.null

/-- Python `d.get(k, default)`. -/
def pyGetD (j : Json) (k : String) (default : Json) : Json := (j.find? k).getD default

/-- Python `k in d` on a dict. -/
def Json.hasKeyB (j : Json) (k : String) : Bool := (j.find? k).isSome

/-- Python `isinstance(x, dict)`. -/
def Json.isObj : Json → Bool
  | Json.obj _ => true
  | _ => false

/-- Python `isinstance(x, list)`. -/
def Json.isArr : Json → Bool
  | Json.arr _ => true
  | _ => false

/-- Python truthiness of a JSON-like value. -/
def Json.truthy : Json → Bool
  | Json.null => false
  | Json.bool b => b
  | Json.num n => decide (n ≠ 0)
  | Json.str t => decide (t ≠ "")
  | Json.arr l => !l.isEmpty
  | Json.obj fs => !fs.isEmpty

/-- The string carried by a JSON string value (used where the Python code interpolates a
string field into a message or key; on the paths of interest the value is a string). -/
def Json.asStr : Json → String
  | Json.str s => s
  | _ => ""

/-- The integer carried by a JSON number (used for timestamp comparison). -/
def jsonToInt : Json → Int
  | Json.num n => n
  | _ => 0

/-- The check `isinstance(x, dict) and "error" in x` used throughout `vscdb.py` to
recognise the error dicts it returns in-band. -/
def isErrDict (j : Json) : Bool := j.isObj && j.hasKeyB "error"

/-- Outcome of `json.loads` on a piece of stored text: either it parses to a value, or it
raises `json.JSONDecodeError` with some message. `json.loads` itself is a library
collaborator; a text is modelled by its parse outcome. -/
inductive JText where
  | parses (j : Json)
  | malformed (details : String)

/-- A raw SQLite value for a key, as seen by `get_json_value_for_key`:  a `bytes` value
together with the outcome of `value_blob.decode("utf-8")` (`Except.error d` models a raised
`UnicodeDecodeError`), or a value that is already a Python `str`. -/
inductive Blob where
  | bytes (decoded : Except String JText)
  | pystr (t : JText)

/-- Result of `SELECT value FROM ItemTable WHERE [key] = ?` for one key, as consumed by
`_execute_query` / `get_json_value_for_key`: no row, a row whose value is SQL NULL, an
`sqlite3` error (returned by `_execute_query` as `{"error": msg, "db_path": ...}`), or a
row with a value. -/
inductive RowResult where
  | noRow
  | nullValue
  | sqlErr (msg : String)
  | val (b : Blob)

/-- State of one `VSCDBQuery` instance over one database file: the file's contents
(`store`, fixed), whether opening the file succeeds (`connectable`, a fixed property of the
file), and the mutable in-memory connection status (`connActive`, i.e. `self.conn` is not
`None`). -/
structure DbState where
  db_path : String
  store : String → RowResult
  connectable : Bool
  connActive : Bool

/-- Config keys: `_load_config` falls back to these defaults whenever `config.yml` is
missing or lacks the entry (vscdb.py lines 30-69). -/
def aichatQueryKey : String := "composer.composerData"

/-- Default for `prompts_key`. -/
def promptsKey : String := "aiService.prompts"

/-- Default for `generations_key`. -/
def generationsKey : String := "aiService.generations"

/-- The dict `{"error": "UnicodeDecodeError", "details": ..., "key_name": ...}` returned by
`get_json_value_for_key` when `value_blob.decode("utf-8")` raises. -/
def uniErrDict (d k : String) : Json :=
  Json.obj [("error", Json.str "UnicodeDecodeError"), ("details", Json.str d),
            ("key_name", Json.str k)]

/-- The dict `{"error": "JSONDecodeError", "details": ..., "key_name": ...}` returned by
`get_json_value_for_key` when `json.loads` raises. -/
def jsonErrDict (d k : String) : Json :=
  Json.obj [("error", Json.str "JSONDecodeError"), ("details", Json.str d),
            ("key_name", Json.str k)]

/-- The `json.loads(value_str)` step of `get_json_value_for_key` together with its
`except json.JSONDecodeError` handler (vscdb.py lines 203-212). -/
def parseText (t : JText) (k : String) : Json :=
  match t with
  | JText.parses j => j
  | JText.malformed d => jsonErrDict d k

/-- The value-processing block of `get_json_value_for_key` (vscdb.py lines 186-230):
UTF-8-decode a bytes value (`except UnicodeDecodeError` handler, lines 213-221), pass a str
value through, then parse as JSON. -/
def decodeBlob (b : Blob) (k : String) : Json :=
  match b with
  | Blob.bytes (Except.error d) => uniErrDict d k
  | Blob.bytes (Except.ok t) => parseText t k
  | Blob.pystr t => parseText t k

/-- `VSCDBQuery.get_json_value_for_key` (vscdb.py lines 160-235).  When no connection is
active and the file cannot be opened, the re-initialisation attempt fails and an error dict
is returned; an `sqlite3` error from `_execute_query` is propagated; a missing row or a SQL
NULL value yields Python `None`; otherwise the value is decoded and parsed. -/
def get_json_value_for_key (s : DbState) (k : String) : Json :=
  if s.connActive = false ∧ s.connectable = false then
    Json.obj [("error", Json.str "Failed to initialize DB connection for get_json_value_for_key"),
              ("key_name", Json.str k)]
  else
    match s.store k with
    | RowResult.noRow => Json.null
    | RowResult.nullValue => Json.null
    | RowResult.sqlErr m => Json.obj [("error", Json.str m), ("db_path", Json.str s.db_path)]
    | RowResult.val b => decodeBlob b k

/-- The filter of `get_all_chat_sessions_metadata`'s loop (vscdb.py line 267):
`if composer.get("composerId") and composer.get("name")`. -/
def composerQualifies (c : Json) : Bool := (pyGet c "composerId").truthy && (pyGet c "name").truthy

/-- The session-descriptor dict appended for a qualifying composer entry
(vscdb.py lines 268-275). -/
def mkSessionMeta (c : Json) : Json :=
  Json.obj [("composerId", pyGet c "composerId"), ("name", pyGet c "name"),
            ("lastUpdatedAt", pyGet c "lastUpdatedAt"), ("createdAt", pyGet c "createdAt")]

/-- The error dict of the `except TypeError` handler of `get_all_chat_sessions_metadata`
(vscdb.py lines 280-287); the interpolated exception text is abstracted. -/
def metadataStructureError (s : DbState) : Json :=
  Json.obj [("error", Json.str "Unexpected composer metadata structure: TypeError"),
            ("db_path", Json.str s.db_path)]

/-- The error dict of the final `except Exception` handler of
`get_all_chat_sessions_metadata` (vscdb.py lines 288-295), reached e.g. when a composer
entry is not a dict (`AttributeError` on `.get`); the exception text is abstracted. -/
def metadataParseError (s : DbState) : Json :=
  Json.obj [("error", Json.str "Error parsing allComposers from metadata: AttributeError"),
            ("db_path", Json.str s.db_path)]

/-- `VSCDBQuery.get_all_chat_sessions_metadata` (vscdb.py lines 237-295).

The branches mirror the source: inactive connection and missing config key return error
dicts; a falsy or error-dict fetch result is returned unchanged (so a missing key returns
Python `None`, not a list); otherwise `composer_data_json.get("allComposers", [])` is
iterated.  The iteration's Python failure modes are embedded: a non-dict
`composer_data_json` raises `AttributeError` on `.get`; a non-iterable `allComposers` value
raises `TypeError`; iterating a non-empty string or dict yields elements without `.get`
(`AttributeError`), while empty ones iterate zero times; a non-dict element raises
`AttributeError`.  The loop appends the descriptor exactly for the entries passing
`composerQualifies`; append-if-over-a-loop is rendered as `filter` + `map`. -/
def get_all_chat_sessions_metadata (s : DbState) : Json :=
  if s.connActive = false then
    Json.obj [("error", Json.str "DB connection not active for metadata retrieval")]
  else if aichatQueryKey = "" then
    Json.obj [("error", Json.str "aichat_query_key missing in config")]
  else
    let cd := get_json_value_for_key s aichatQueryKey
    if cd.truthy = false then cd
    else if isErrDict cd then cd
    else
      match cd with
      | Json.obj _ =>
        match cd.find? "allComposers" with
        | none => Json.arr []
        | some (Json.arr cs) =>
            if cs.all Json.isObj then
              Json.arr ((cs.filter composerQualifies).map mkSessionMeta)
            else metadataParseError s
        | some (Json.str t) => if t = "" then Json.arr [] else metadataParseError s
        | some (Json.obj gs) => if gs.isEmpty then Json.arr [] else metadataParseError s
        | some _ => metadataStructureError s
      | _ => metadataParseError s

/-- `VSCDBQuery.get_all_prompts_raw` (vscdb.py lines 297-316): fetch the prompts key; a
`None` result, an error dict, or a non-list value all yield `None`; a list is returned
unchanged (the elements are not inspected). -/
def get_all_prompts_raw (s : DbState) : Json :=
  let pj := get_json_value_for_key s promptsKey
  if isErrDict pj then Json.null
  else
    match pj with
    | Json.arr elems => Json.arr elems
    | _ => Json.null

/-- `VSCDBQuery.get_all_generations_raw` (vscdb.py lines 318-339): same structure as
`get_all_prompts_raw` over the generations key. -/
def get_all_generations_raw (s : DbState) : Json :=
  let gj := get_json_value_for_key s generationsKey
  if isErrDict gj then Json.null
  else
    match gj with
    | Json.arr elems => Json.arr elems
    | _ => Json.null

/-!
## The modelled turn reconstructor

`VSCDBQuery.query_all_chat_data` (vscdb.py line 384) calls
`self.get_chat_session_details(composer_id)`, but no definition of that method appears in
the sources; only its caller does.  The definitions in this section are therefore modelled
from the spec (sections 4.5 and 6), not translated from source code.
-/

/-- Modelled from the spec: the deterministic per-session key pattern of section 6; the
concrete prefix appears in the caller's log message (vscdb.py line 408). -/
def sessionDetailKey (cid : String) : String :=
  "workbench.panel.composerChatViewPane." ++ cid

/-- Modelled from the spec: a raw prompt/generation element contributes to a session when
its session-link hint equals the target session id (spec section 4.5, strategy 1). -/
def hintMatches (cid : String) (e : Json) : Bool :=
  match pyGet e "sessionLinkHint" with
  | Json.str h => h == cid
  | _ => false

/-- The global prompts contributing to a session, in original array order. -/
def matchedPrompts (cid : String) (pl : List Json) : List Json :=
  pl.filter (hintMatches cid)

/-- The global generations contributing to a session, each with its original array
position. -/
def matchedGens (cid : String) (gl : List Json) : List (Nat × Json) :=
  gl.enum.filter (fun ig => hintMatches cid ig.2)

/-- Timestamp of a raw generation, as an integer (0 when absent; only used on elements
that carry one). -/
def tsOf (g : Json) : Int := jsonToInt (pyGet g "timestamp")

/-- Whether a raw generation carries a timestamp. -/
def hasTs (g : Json) : Bool :=
  match pyGet g "timestamp" with
  | Json.num _ => true
  | _ => false

/-- Modelled from the spec: sort order of strategy 1 — timestamp ascending, original array
position as tiebreak. -/
def turnLe (a b : Json × Nat × Json) : Prop :=
  tsOf a.2.2 < tsOf b.2.2 ∨ (tsOf a.2.2 = tsOf b.2.2 ∧ a.2.1 ≤ b.2.1)

instance : DecidableRel turnLe := fun a b => by
  unfold turnLe; exact inferInstance

instance : IsTotal (Json × Nat × Json) turnLe := by
  constructor
  intro a b
  rcases Int.lt_trichotomy (tsOf a.2.2) (tsOf b.2.2) with h | h | h
  · exact Or.inl (Or.inl h)
  · rcases Nat.le_total a.2.1 b.2.1 with h2 | h2
    · exact Or.inl (Or.inr ⟨h, h2⟩)
    · exact Or.inr (Or.inr ⟨h.symm, h2⟩)
  · exact Or.inr (Or.inl h)

instance : IsTrans (Json × Nat × Json) turnLe := by
  constructor
  intro a b c hab hbc
  rcases hab with h1 | ⟨e1, i1⟩ <;> rcases hbc with h2 | ⟨e2, i2⟩
  · exact Or.inl (lt_trans h1 h2)
  · exact Or.inl (e2 ▸ h1)
  · exact Or.inl (e1 ▸ h2)
  · exact Or.inr ⟨e1.trans e2, Nat.le_trans i1 i2⟩

/-- Modelled from the spec: the reconstructed turn record
`{request, response, timestamp, generationId}` (spec section 3, `Turn`), built from a
prompt and an indexed generation. -/
def mkTurn (p : Json) (ig : Nat × Json) : Json :=
  Json.obj [("request", pyGet p "text"), ("response", pyGet ig.2 "text"),
            ("timestamp", pyGet ig.2 "timestamp"), ("generationId", pyGet ig.2 "generationId")]

/-- The matched prompt/generation pairs of a session: the k-th contributing prompt with
the k-th contributing generation. -/
def pairedElems (cid : String) (pl gl : List Json) : List (Json × Nat × Json) :=
  (matchedPrompts cid pl).zip (matchedGens cid gl)

/-- Whether every contributing generation carries a timestamp. -/
def allTimestamped (cid : String) (gl : List Json) : Bool :=
  (matchedGens cid gl).all (fun ig => hasTs ig.2)

/-- Modelled from the spec: per-session turn reconstruction from the global arrays (spec
section 4.5, strategy 1, and the Ordering guarantee): pair contributing prompts and
generations; when timestamps are available for all contributing elements, order by
timestamp ascending with original array position as tiebreak; when timestamps are
partially missing, original array order is the fallback order. -/
def reconstruct_turns (cid : String) (pl gl : List Json) : List Json :=
  let pairs := pairedElems cid pl gl
  if allTimestamped cid gl then
    (List.insertionSort turnLe pairs).map (fun x => mkTurn x.1 x.2)
  else
    pairs.map (fun x => mkTurn x.1 x.2)

/-- The sequence of turns in original array order, written from the claim's words ("the
turns follow original array order"), for comparison with `reconstruct_turns`. -/
def array_order_turns (cid : String) (pl gl : List Json) : List Json :=
  (pairedElems cid pl gl).map (fun x => mkTurn x.1 x.2)

/-- Modelled from the spec: `VSCDBQuery.get_chat_session_details` (missing from the
sources; called at vscdb.py line 384).  Per spec sections 4.5 and 9, the per-session keyed
blob is authoritative and is preferred when present (strategy 2); a fetch error is
propagated as an error dict (the caller's error branch, vscdb.py line 396); when the keyed
blob is absent, the global arrays are correlated by explicit linkage (strategy 1); when the
global stores yield no arrays either, Python `None` is returned (the caller's
no-data branch, vscdb.py line 404). -/
def get_chat_session_details (s : DbState) (cid : String) : Json :=
  let blob := get_json_value_for_key s (sessionDetailKey cid)
  if isErrDict blob then blob
  else
    match blob with
    | Json.null =>
      match get_all_prompts_raw s, get_all_generations_raw s with
      | Json.arr pl, Json.arr gl => Json.obj [("turns", Json.arr (reconstruct_turns cid pl gl))]
      | _, _ => Json.null
    | b => b

/-!
## `query_all_chat_data` and the export loop
-/

/-- The `session_data` and `error` fields of a chat entry, from the classification of the
`get_chat_session_details` result (vscdb.py lines 396-411): an error dict sets `error`, a
`None` result sets the fixed no-data message, anything else becomes `session_data`. -/
def detailsToFields (details : Json) : Json × Json :=
  if isErrDict details then
    (Json.null, Json.str ("Failed to get session details: " ++ Json.asStr (pyGet details "error")))
  else
    match details with
    | Json.null => (Json.null, Json.str "No chat session data found for this composerId.")
    | d => (d, Json.null)

/-- One `chat_entry` of `query_all_chat_data`'s loop (vscdb.py lines 382-413). -/
def mkChatEntry (s : DbState) (m : Json) : Json :=
  let cid := pyGet m "composerId"
  let fields := detailsToFields (get_chat_session_details s (Json.asStr cid))
  Json.obj [("composerId", cid), ("name", pyGet m "name"),
            ("lastUpdatedAt", pyGet m "lastUpdatedAt"), ("createdAt", pyGet m "createdAt"),
            ("db_path", Json.str s.db_path),
            ("session_data", fields.1), ("error", fields.2)]

/-- The single error entry returned when the metadata fetch fails
(vscdb.py lines 362-373). -/
def metaFailEntry (s : DbState) (meta : Json) : Json :=
  Json.obj [("error", Json.str ("Metadata fetch failed: " ++ Json.asStr (pyGet meta "error"))),
            ("db_path", Json.str s.db_path)]

/-- The single error entry returned when the connection cannot be initialised
(vscdb.py lines 350-356). -/
def connFailEntry (s : DbState) : Json :=
  Json.obj [("error", Json.str ("Failed to initialize DB connection for " ++ s.db_path)),
            ("db_path", Json.str s.db_path)]

/-- The body of `query_all_chat_data` once a connection is active (vscdb.py lines
359-421): fetch the session metadata; an error dict yields the single error entry; a falsy
result yields the empty list; otherwise one `chat_entry` per session descriptor, in
order. The final catch-all branch is unreachable (`metadata_result_cases` below: every
truthy non-error result of `get_all_chat_sessions_metadata` is a list). -/
def query_body (s : DbState) : Json :=
  let meta := get_all_chat_sessions_metadata s
  if isErrDict meta then Json.arr [metaFailEntry s meta]
  else if meta.truthy then
    match meta with
    | Json.arr ms => Json.arr (ms.map (mkChatEntry s))
    | _ => Json.null
  else Json.arr []

/-- `VSCDBQuery.query_all_chat_data` (vscdb.py lines 341-421) with its connection
management: an already-active connection is used and left open; otherwise a connection is
opened locally for the call and closed before returning (or, when the file cannot be
opened, the single connection-failure entry is returned).  The pair is (returned value,
instance state after the call). -/
def query_all_chat_data (s : DbState) : Json × DbState :=
  if s.connActive then (query_body s, s)
  else if s.connectable then
    (query_body { s with connActive := true }, { s with connActive := false })
  else (Json.arr [connFailEntry s], s)

/-- One exported record of `chat.py`'s `export` command (chat.py lines 358-364); the
`created_at` field is omitted from the model because the source formats it from the
wall clock (`datetime.now()`) when the session has no `createdAt`. -/
def exportRecord (s : DbState) (sd : Json) : Json :=
  Json.obj [("title", pyGetD sd "name" (Json.str "Untitled Chat")),
            ("composer_id", pyGetD sd "composerId" (Json.str "UnknownID")),
            ("db_identifier", Json.str s.db_path),
            ("turns", pyGetD sd "turns" (Json.arr []))]

/-- The per-database part of `chat.py`'s export loop (chat.py lines 317-410): query all
chat data; a falsy result moves on to the next database; otherwise each session whose
`turns` value is truthy is exported. -/
def exported_sessions (s : DbState) : List Json :=
  let res := (query_all_chat_data s).1
  if res.truthy then
    match res with
    | Json.arr sessions =>
        (sessions.filter (fun sd => (pyGetD sd "turns" (Json.arr [])).truthy)).map
          (exportRecord s)
    | _ => []
  else []

/-- The multi-database export run (chat.py lines 317-335): each database in
`db_files_to_process` is processed in turn. -/
def export_run (dbs : List DbState) : List (List Json) := dbs.map exported_sessions

/-!
## Concrete stores used as witnesses and counterexamples
-/

/-- A composer entry with both an id and a title (spec section 8 scenario). -/
def wComposerA : Json := Json.obj [("composerId", Json.str "a"), ("name", Json.str "Foo")]

/-- A composer entry missing its title (spec section 8 scenario). -/
def wComposerB : Json := Json.obj [("composerId", Json.str "b")]

/-- Fields of a metadata blob listing the two composers above. -/
def wMetaFields : List (String × Json) := [("allComposers", Json.arr [wComposerA, wComposerB])]

/-- One stored per-session blob, with a single turn. -/
def wSessionBlob : Json :=
  Json.obj [("turns", Json.arr [Json.obj [("request", Json.str "hi"),
                                          ("response", Json.str "hello")]])]

/-- A healthy store: metadata blob present, a keyed session blob for composer `a`. -/
def wStore : String → RowResult := fun k =>
  if k = aichatQueryKey then RowResult.val (Blob.pystr (JText.parses (Json.obj wMetaFields)))
  else if k = sessionDetailKey "a" then RowResult.val (Blob.pystr (JText.parses wSessionBlob))
  else RowResult.noRow

/-- A healthy database state over `wStore`. -/
def wState : DbState :=
  { db_path := "dbW", store := wStore, connectable := true, connActive := true }

/-- A store with no row at all for the metadata key. -/
def c3State : DbState :=
  { db_path := "db3", store := fun _ => RowResult.noRow, connectable := true, connActive := true }

/-- A well-formed prompt element. -/
def c4Good : Json := Json.obj [("text", Json.str "hi")]

/-- A store whose prompts document parses to an array with one well-formed element and one
malformed (non-object) element. -/
def c4Store : String → RowResult := fun k =>
  if k = promptsKey then
    RowResult.val (Blob.pystr (JText.parses (Json.arr [c4Good, Json.num 42])))
  else RowResult.noRow

/-- Database state over `c4Store`. -/
def c4State : DbState :=
  { db_path := "db4", store := c4Store, connectable := true, connActive := true }

/-- A store whose prompts document does not parse at all. -/
def c4BadStore : String → RowResult := fun k =>
  if k = promptsKey then RowResult.val (Blob.pystr (JText.malformed "bad"))
  else RowResult.noRow

/-- Database state over `c4BadStore`. -/
def c4BadState : DbState :=
  { db_path := "db4b", store := c4BadStore, connectable := true, connActive := true }

/-- A store whose generations document parses to an array. -/
def c4GenStore : String → RowResult := fun k =>
  if k = generationsKey then RowResult.val (Blob.pystr (JText.parses (Json.arr [c4Good])))
  else RowResult.noRow

/-- Database state over `c4GenStore`. -/
def c4GenState : DbState :=
  { db_path := "db4g", store := c4GenStore, connectable := true, connActive := true }

/-- A store whose metadata document is present but malformed. -/
def c5BadStore : String → RowResult := fun k =>
  if k = aichatQueryKey then RowResult.val (Blob.pystr (JText.malformed "unparseable"))
  else RowResult.noRow

/-- Database state over `c5BadStore`. -/
def c5BadState : DbState :=
  { db_path := "db5", store := c5BadStore, connectable := true, connActive := true }

/-- A store whose metadata blob is healthy (one qualifying composer) but whose prompts
fixed-key value is present and malformed. -/
def c5PromptStore : String → RowResult := fun k =>
  if k = aichatQueryKey then
    RowResult.val (Blob.pystr (JText.parses (Json.obj [("allComposers", Json.arr [wComposerA])])))
  else if k = promptsKey then RowResult.val (Blob.pystr (JText.malformed "badprompts"))
  else RowResult.noRow

/-- Database state over `c5PromptStore`. -/
def c5PromptState : DbState :=
  { db_path := "db5p", store := c5PromptStore, connectable := true, connActive := true }

/-- A store whose prompts document is malformed JSON (failure kind: malformed-JSON). -/
def c7StoreA : String → RowResult := fun k =>
  if k = promptsKey then RowResult.val (Blob.pystr (JText.malformed "boom"))
  else RowResult.noRow

/-- Database state over `c7StoreA`. -/
def c7StateA : DbState :=
  { db_path := "db7", store := c7StoreA, connectable := true, connActive := true }

/-- A store whose prompts document parses successfully — to an object (wrong shape for the
prompts store) that happens to equal the dict `get_json_value_for_key` returns for a
malformed-JSON failure. -/
def c7StoreB : String → RowResult := fun k =>
  if k = promptsKey then RowResult.val (Blob.pystr (JText.parses (jsonErrDict "boom" promptsKey)))
  else RowResult.noRow

/-- Database state over `c7StoreB`. -/
def c7StateB : DbState :=
  { db_path := "db7", store := c7StoreB, connectable := true, connActive := true }

/-- A prompt element hinted to session `a`. -/
def c2Prompt : Json :=
  Json.obj [("text", Json.str "hi"), ("sessionLinkHint", Json.str "a")]

/-- A generation element hinted to session `a`, with a timestamp. -/
def c2Gen : Json :=
  Json.obj [("text", Json.str "hello"), ("sessionLinkHint", Json.str "a"),
            ("timestamp", Json.num 5), ("generationId", Json.str "g1")]

/-- A second generation element hinted to session `a`, with an earlier timestamp. -/
def c2Gen2 : Json :=
  Json.obj [("text", Json.str "again"), ("sessionLinkHint", Json.str "a"),
            ("timestamp", Json.num 3), ("generationId", Json.str "g2")]

/-- A concrete state for the `c7_amended` witness: a bytes value that fails UTF-8
decoding. -/
def c7UniStore : String → RowResult := fun k =>
  if k = promptsKey then RowResult.val (Blob.bytes (Except.error "bad byte"))
  else RowResult.noRow

/-- Database state over `c7UniStore`. -/
def c7UniState : DbState :=
  { db_path := "db7u", store := c7UniStore, connectable := true, connActive := true }

/-!
## Helper lemmas
-/

/-- Projection: the `composerId` field of a chat entry is the descriptor's. -/
theorem pyGet_mkChatEntry_composerId (s : DbState) (m : Json) :
    pyGet (mkChatEntry s m) "composerId" = pyGet m "composerId" := rfl

/-- Projection: the `session_data` field of a chat entry. -/
theorem pyGet_mkChatEntry_sd (s : DbState) (m : Json) :
    pyGet (mkChatEntry s m) "session_data" =
      (detailsToFields (get_chat_session_details s (Json.asStr (pyGet m "composerId")))).1 := rfl

/-- Projection: the `error` field of a chat entry. -/
theorem pyGet_mkChatEntry_err (s : DbState) (m : Json) :
    pyGet (mkChatEntry s m) "error" =
      (detailsToFields (get_chat_session_details s (Json.asStr (pyGet m "composerId")))).2 := rfl

/-- Projection: the `composerId` field of a session descriptor. -/
theorem pyGet_mkSessionMeta_composerId (c : Json) :
    pyGet (mkSessionMeta c) "composerId" = pyGet c "composerId" := rfl

/-- Projection: the `timestamp` field of a reconstructed turn is the generation's. -/
theorem pyGet_mkTurn_timestamp (p : Json) (ig : Nat × Json) :
    pyGet (mkTurn p ig) "timestamp" = pyGet ig.2 "timestamp" := rfl

/-- Exactly one of `session_data` and `error` is set by the classification of a
`get_chat_session_details` result. -/
theorem detailsToFields_excl (d : Json) :
    ((detailsToFields d).1 = Json.null ∧ (detailsToFields d).2 ≠ Json.null) ∨
    ((detailsToFields d).1 ≠ Json.null ∧ (detailsToFields d).2 = Json.null) := by
  unfold detailsToFields
  by_cases h : isErrDict d = true
  · simp [h]
  · simp only [h, if_false, Bool.not_eq_true] at *
    cases d <;> simp

/-- In every chat entry, `error` is unset exactly when `session_data` is set. -/
theorem chatEntry_err_iff (s : DbState) (m : Json) :
    pyGet (mkChatEntry s m) "error" = Json.null ↔
      pyGet (mkChatEntry s m) "session_data" ≠ Json.null := by
  rw [pyGet_mkChatEntry_err, pyGet_mkChatEntry_sd]
  rcases detailsToFields_excl (get_chat_session_details s (Json.asStr (pyGet m "composerId")))
    with ⟨h1, h2⟩ | ⟨h1, h2⟩ <;> simp [h1, h2]

/-- An error dict is truthy (it is a non-empty dict). -/
theorem isErrDict_truthy (j : Json) (h : isErrDict j = true) : j.truthy = true := by
  cases j with
  | obj fs =>
    cases fs with
    | nil => simp [isErrDict, Json.hasKeyB, Json.find?, assocFind] at h
    | cons a t => rfl
  | null => simp [isErrDict, Json.isObj] at h
  | bool b => simp [isErrDict, Json.isObj] at h
  | num n => simp [isErrDict, Json.isObj] at h
  | str t => simp [isErrDict, Json.isObj] at h
  | arr l => simp [isErrDict, Json.isObj] at h

/-- Characterisation of the catalog load on a successfully decoded metadata blob: the
result is the descriptor list of the qualifying composers, in blob order. -/
theorem metadata_success (s : DbState) (o : List (String × Json)) (cs : List Json)
    (hconn : s.connActive = true)
    (hmeta : get_json_value_for_key s aichatQueryKey = Json.obj o)
    (herr : Json.hasKeyB (Json.obj o) "error" = false)
    (hac : Json.find? (Json.obj o) "allComposers" = some (Json.arr cs))
    (hobj : cs.all Json.isObj = true) :
    get_all_chat_sessions_metadata s =
      Json.arr ((cs.filter composerQualifies).map mkSessionMeta) := by
  have ho : o.isEmpty = false := by
    cases o with
    | nil => simp [Json.find?, assocFind] at hac
    | cons a t => rfl
  unfold get_all_chat_sessions_metadata
  rw [hconn]
  rw [if_neg (by simp)]
  rw [if_neg (by decide)]
  rw [hmeta]
  rw [if_neg (by simp [Json.truthy, ho])]
  rw [if_neg (by simp [isErrDict, Json.isObj, herr])]
  rw [hac]
  simp [hobj]

/-- Every result of the catalog load is a list, an error dict, or falsy. -/
theorem metadata_result_cases (s : DbState) :
    (∃ ms, get_all_chat_sessions_metadata s = Json.arr ms) ∨
    isErrDict (get_all_chat_sessions_metadata s) = true ∨
    (get_all_chat_sessions_metadata s).truthy = false := by
  unfold get_all_chat_sessions_metadata
  by_cases h1 : s.connActive = false
  · rw [if_pos h1]; exact Or.inr (Or.inl rfl)
  · rw [if_neg h1, if_neg (by decide)]
    by_cases h2 : (get_json_value_for_key s aichatQueryKey).truthy = false
    · rw [if_pos h2]; exact Or.inr (Or.inr h2)
    · rw [if_neg h2]
      by_cases h3 : isErrDict (get_json_value_for_key s aichatQueryKey) = true
      · rw [if_pos h3]; exact Or.inr (Or.inl h3)
      · rw [if_neg h3]
        cases hv : get_json_value_for_key s aichatQueryKey with
        | obj fs =>
          dsimp only
          cases hf : Json.find? (Json.obj fs) "allComposers" with
          | none => exact Or.inl ⟨[], rfl⟩
          | some v =>
            cases v with
            | arr cs =>
              dsimp only
              by_cases h4 : cs.all Json.isObj
              · rw [if_pos h4]; exact Or.inl ⟨_, rfl⟩
              · rw [if_neg h4]; exact Or.inr (Or.inl rfl)
            | str t =>
              dsimp only
              by_cases h5 : t = ""
              · rw [if_pos h5]; exact Or.inl ⟨[], rfl⟩
              · rw [if_neg h5]; exact Or.inr (Or.inl rfl)
            | obj gs =>
              dsimp only
              by_cases h6 : gs.isEmpty
              · rw [if_pos h6]; exact Or.inl ⟨[], rfl⟩
              · rw [if_neg h6]; exact Or.inr (Or.inl rfl)
            | null => exact Or.inr (Or.inl rfl)
            | bool b => exact Or.inr (Or.inl rfl)
            | num n => exact Or.inr (Or.inl rfl)
        | null => exact Or.inr (Or.inl rfl)
        | bool b => exact Or.inr (Or.inl rfl)
        | num n => exact Or.inr (Or.inl rfl)
        | str t => exact Or.inr (Or.inl rfl)
        | arr l => exact Or.inr (Or.inl rfl)

/-- When the catalog load yields a list, `query_body` yields one chat entry per
descriptor, in order. -/
theorem query_body_meta_list (s : DbState) (ms : List Json)
    (h : get_all_chat_sessions_metadata s = Json.arr ms) :
    query_body s = Json.arr (ms.map (mkChatEntry s)) := by
  unfold query_body
  rw [h]
  cases ms with
  | nil => simp [isErrDict, Json.isObj, Json.truthy]
  | cons a t => simp [isErrDict, Json.isObj, Json.truthy]

/-- `query_body` always yields a list. -/
theorem query_body_is_list (s : DbState) : ∃ es, query_body s = Json.arr es := by
  rcases metadata_result_cases s with ⟨ms, hm⟩ | h | h
  · exact ⟨_, query_body_meta_list s ms hm⟩
  · refine ⟨[metaFailEntry s (get_all_chat_sessions_metadata s)], ?_⟩
    unfold query_body
    rw [if_pos h]
  · have hne : isErrDict (get_all_chat_sessions_metadata s) = false := by
      cases he : isErrDict (get_all_chat_sessions_metadata s)
      · rfl
      · rw [isErrDict_truthy _ he] at h; exact absurd h (by simp)
    refine ⟨[], ?_⟩
    unfold query_body
    rw [if_neg (by simp [hne]), if_neg (by simp [h])]

/-- Every entry of a `query_body` list has `session_data` or `error` unset. -/
theorem query_body_entry_excl (s : DbState) (es : List Json)
    (h : query_body s = Json.arr es) :
    ∀ e ∈ es, pyGet e "session_data" = Json.null ∨ pyGet e "error" = Json.null := by
  unfold query_body at h
  by_cases h1 : isErrDict (get_all_chat_sessions_metadata s) = true
  · rw [if_pos h1] at h
    injection h with h2
    subst h2
    intro e he
    simp only [List.mem_singleton] at he
    subst he
    exact Or.inl rfl
  · rw [if_neg h1] at h
    by_cases h2 : (get_all_chat_sessions_metadata s).truthy = true
    · rw [if_pos h2] at h
      cases hm : get_all_chat_sessions_metadata s with
      | arr ms =>
        rw [hm] at h
        injection h with h3
        subst h3
        intro e he
        simp only [List.mem_map] at he
        obtain ⟨m, _, rfl⟩ := he
        rcases detailsToFields_excl
            (get_chat_session_details s (Json.asStr (pyGet m "composerId")))
          with ⟨ha, _⟩ | ⟨_, hb⟩
        · exact Or.inl (by rw [pyGet_mkChatEntry_sd]; exact ha)
        · exact Or.inr (by rw [pyGet_mkChatEntry_err]; exact hb)
      | null => rw [hm] at h; cases h
      | bool b => rw [hm] at h; cases h
      | num n => rw [hm] at h; cases h
      | str t => rw [hm] at h; cases h
      | obj fs => rw [hm] at h; cases h
    · rw [if_neg h2] at h
      injection h with h3
      subst h3
      intro e he
      cases he

/-- When the metadata key's value fetch produces an error dict, the catalog load returns
it and `query_body` is the single per-database error entry. -/
theorem query_body_metadata_error (t : DbState) (hconn : t.connActive = true) (e : Json)
    (he : isErrDict e = true)
    (hcd : get_json_value_for_key t aichatQueryKey = e) :
    query_body t = Json.arr [metaFailEntry t e] := by
  have hmeta : get_all_chat_sessions_metadata t = e := by
    unfold get_all_chat_sessions_metadata
    rw [hconn]
    rw [if_neg (by simp)]
    rw [if_neg (by decide)]
    rw [hcd]
    rw [if_neg (by simp [isErrDict_truthy e he])]
    rw [if_pos he]
  unfold query_body
  rw [hmeta, if_pos he]

/-!
## Claims
-/

/-- Claim C3 (code bug): when the fixed session-metadata key has no row in the store, the
catalog load `get_all_chat_sessions_metadata` is claimed (and its own docstring says) to
return an empty sequence; the code instead propagates the `None` that
`get_json_value_for_key` returns for a missing key, which is neither a list nor an error
dict. -/
theorem c3_metadata_missing_key_returns_none :
    get_all_chat_sessions_metadata c3State = Json.null ∧
    Json.null ≠ Json.arr [] ∧
    isErrDict Json.null = false := by
  refine ⟨rfl, fun h => Json.noConfusion h, rfl⟩

/-- Claim C4 (counterexample): with exactly one malformed (non-object) element among the
parsed prompts, `get_all_prompts_raw` returns the whole array unchanged — the malformed
element included — and not the sequence of only the well-formed elements. -/
theorem c4_no_element_skipping :
    get_all_prompts_raw c4State = Json.arr [c4Good, Json.num 42] ∧
    Json.arr [c4Good, Json.num 42] ≠ Json.arr [c4Good] := by
  refine ⟨rfl, fun h => ?_⟩
  have h2 := Json.arr.inj h
  simp at h2

/-- Claim C4 (amended): the prompt/generation loaders perform no per-element decoding or
validation: when the stored document parses as a JSON array, the entire array is returned
unchanged (malformed elements included); when the document itself fails to decode, the
whole load returns `None`, dropping the well-formed elements too. -/
theorem c4_amended_whole_array_or_nothing (s1 s2 : DbState) (xs : List Json) (d : String)
    (h1 : get_json_value_for_key s1 promptsKey = Json.arr xs)
    (h2 : get_json_value_for_key s2 promptsKey = jsonErrDict d promptsKey) :
    get_all_prompts_raw s1 = Json.arr xs ∧
    get_all_prompts_raw s2 = Json.null ∧
    (∀ (s3 : DbState) (ys : List Json),
      get_json_value_for_key s3 generationsKey = Json.arr ys →
      get_all_generations_raw s3 = Json.arr ys) := by
  refine ⟨?_, ?_, ?_⟩
  · unfold get_all_prompts_raw
    rw [h1]
    simp [isErrDict, Json.isObj]
  · unfold get_all_prompts_raw
    rw [h2]
    simp [isErrDict, Json.isObj, jsonErrDict, Json.hasKeyB, Json.find?, assocFind]
  · intro s3 ys h3
    unfold get_all_generations_raw
    rw [h3]
    simp [isErrDict, Json.isObj]

/-- Claim C4 witness: the amended statement at the concrete stores. -/
theorem c4_amended_witness :
    get_json_value_for_key c4State promptsKey = Json.arr [c4Good, Json.num 42] ∧
    get_json_value_for_key c4BadState promptsKey = jsonErrDict "bad" promptsKey ∧
    get_all_prompts_raw c4State = Json.arr [c4Good, Json.num 42] ∧
    get_all_prompts_raw c4BadState = Json.null ∧
    get_all_generations_raw c4GenState = Json.arr [c4Good] := by
  have h := c4_amended_whole_array_or_nothing c4State c4BadState [c4Good, Json.num 42] "bad"
    rfl rfl
  exact ⟨rfl, rfl, h.1, h.2.1, h.2.2 c4GenState [c4Good] rfl⟩

/-- Claim C5 (counterexample): a database whose prompts fixed-key value is present but
fails to decode gets no per-database error entry from `query_all_chat_data`: the metadata
is healthy, so the result is the ordinary per-session entry list, whose single entry
carries `composerId` `"a"` — whereas the per-database error entries (the
connection-failure and metadata-failure entries, the only single-entry returns in
vscdb.py lines 341-421) never carry a `composerId`. -/
theorem c5_prompts_failure_no_db_error_entry :
    c5PromptState.store promptsKey = RowResult.val (Blob.pystr (JText.malformed "badprompts")) ∧
    get_json_value_for_key c5PromptState promptsKey = jsonErrDict "badprompts" promptsKey ∧
    (query_all_chat_data c5PromptState).1 =
      Json.arr [mkChatEntry c5PromptState (mkSessionMeta wComposerA)] ∧
    pyGet (mkChatEntry c5PromptState (mkSessionMeta wComposerA)) "composerId" = Json.str "a" ∧
    (∀ m, pyGet (metaFailEntry c5PromptState m) "composerId" = Json.null) ∧
    pyGet (connFailEntry c5PromptState) "composerId" = Json.null :=
  ⟨rfl, rfl, rfl, rfl, fun _ => rfl, rfl⟩

/-- Claim C5 (amended): a decode failure of the session-metadata fixed key makes
`query_all_chat_data` return — for every database state whose value at that key is present
but fails to decode (either encoding failure or malformed JSON) — a one-element list
containing a per-database error dict, rather than raising; decode failures of the
prompts/generations fixed keys never produce a per-database error entry (the
counterexample above); and in a multi-database export run each database's exported output
depends only on that database, so every other database still produces its full output. -/
theorem c5_amended_metadata_failure_entry (s : DbState) (b : Blob) (d : String)
    (hconn : s.connActive = true ∨ s.connectable = true)
    (hb : s.store aichatQueryKey = RowResult.val b)
    (hfail : decodeBlob b aichatQueryKey = uniErrDict d aichatQueryKey ∨
             decodeBlob b aichatQueryKey = jsonErrDict d aichatQueryKey) :
    ((query_all_chat_data s).1 = Json.arr [metaFailEntry s (decodeBlob b aichatQueryKey)] ∧
     isErrDict (metaFailEntry s (decodeBlob b aichatQueryKey)) = true) ∧
    (∀ (pre post : List DbState) (t : DbState),
      export_run (pre ++ t :: post) =
        export_run pre ++ exported_sessions t :: export_run post) := by
  have he : isErrDict (decodeBlob b aichatQueryKey) = true := by
    rcases hfail with h | h <;> rw [h] <;> rfl
  refine ⟨⟨?_, rfl⟩, ?_⟩
  · by_cases hA : s.connActive = true
    · have hcd : get_json_value_for_key s aichatQueryKey = decodeBlob b aichatQueryKey := by
        unfold get_json_value_for_key
        rw [if_neg (by simp [hA])]
        rw [hb]
      have hq := query_body_metadata_error s hA _ he hcd
      unfold query_all_chat_data
      rw [if_pos hA]
      exact hq
    · have hB : s.connectable = true := hconn.resolve_left hA
      have hcd : get_json_value_for_key { s with connActive := true } aichatQueryKey =
          decodeBlob b aichatQueryKey := by
        unfold get_json_value_for_key
        rw [if_neg (by simp)]
        dsimp only
        rw [hb]
      have hq := query_body_metadata_error { s with connActive := true } rfl _ he hcd
      unfold query_all_chat_data
      rw [if_neg hA, if_pos hB]
      exact hq
  · intro pre post t
    simp [export_run]

/-- Claim C5 witness: the amended statement at the concrete store with an undecodable
metadata value. -/
theorem c5_amended_witness :
    c5BadState.connActive = true ∧
    c5BadState.store aichatQueryKey =
      RowResult.val (Blob.pystr (JText.malformed "unparseable")) ∧
    decodeBlob (Blob.pystr (JText.malformed "unparseable")) aichatQueryKey =
      jsonErrDict "unparseable" aichatQueryKey ∧
    (query_all_chat_data c5BadState).1 =
      Json.arr [metaFailEntry c5BadState
        (decodeBlob (Blob.pystr (JText.malformed "unparseable")) aichatQueryKey)] ∧
    isErrDict (metaFailEntry c5BadState
      (decodeBlob (Blob.pystr (JText.malformed "unparseable")) aichatQueryKey)) = true :=
  ⟨rfl, rfl, rfl,
    (c5_amended_metadata_failure_entry c5BadState (Blob.pystr (JText.malformed "unparseable"))
      "unparseable" (Or.inl rfl) rfl (Or.inr rfl)).1.1,
    (c5_amended_metadata_failure_entry c5BadState (Blob.pystr (JText.malformed "unparseable"))
      "unparseable" (Or.inl rfl) rfl (Or.inr rfl)).1.2⟩

/-- Claim C7 (counterexample): the failure outcomes of the decode pipeline are not always
distinguishable by the caller: a store whose prompts document is malformed JSON and a store
whose prompts document parses successfully to a non-array object that mimics the in-band
error dict give identical results, both from `get_json_value_for_key` and from
`get_all_prompts_raw`, although the stored values are of different failure kinds. -/
theorem c7_error_dicts_collide :
    get_json_value_for_key c7StateA promptsKey = get_json_value_for_key c7StateB promptsKey ∧
    get_all_prompts_raw c7StateA = get_all_prompts_raw c7StateB ∧
    c7StateA.store promptsKey ≠ c7StateB.store promptsKey ∧
    Json.isArr (jsonErrDict "boom" promptsKey) = false := by
  refine ⟨rfl, rfl, ?_, rfl⟩
  have hA : c7StateA.store promptsKey = RowResult.val (Blob.pystr (JText.malformed "boom")) := rfl
  have hB : c7StateB.store promptsKey =
      RowResult.val (Blob.pystr (JText.parses (jsonErrDict "boom" promptsKey))) := rfl
  rw [hA, hB]
  intro h
  injection h with h1
  injection h1 with h2
  exact JText.noConfusion h2

/-- Claim C7 (amended): for a present key value the decode classification yields exactly
one of three outcomes — an encoding-failure dict, a malformed-JSON dict, or the parsed
value (wrong shape when not an array); the two failure dicts are always distinguishable
from each other by their distinct `error` strings, and a parsed value is distinguishable
from both provided it is not itself a dict carrying an `error` key. -/
theorem c7_amended_failure_classification (s : DbState) (k : String) (b : Blob)
    (hconn : s.connActive = true) (hb : s.store k = RowResult.val b) :
    (∀ d, b = Blob.bytes (Except.error d) → get_json_value_for_key s k = uniErrDict d k) ∧
    (∀ d, (b = Blob.bytes (Except.ok (JText.malformed d)) ∨ b = Blob.pystr (JText.malformed d)) →
      get_json_value_for_key s k = jsonErrDict d k) ∧
    (∀ j, (b = Blob.bytes (Except.ok (JText.parses j)) ∨ b = Blob.pystr (JText.parses j)) →
      get_json_value_for_key s k = j) ∧
    (∀ d1 d2, uniErrDict d1 k ≠ jsonErrDict d2 k) ∧
    (∀ j d, isErrDict j = false → j ≠ uniErrDict d k ∧ j ≠ jsonErrDict d k) := by
  have hget : ∀ bb, s.store k = RowResult.val bb → get_json_value_for_key s k = decodeBlob bb k := by
    intro bb hbb
    unfold get_json_value_for_key
    rw [if_neg (by simp [hconn])]
    rw [hbb]
  refine ⟨?_, ?_, ?_, ?_, ?_⟩
  · intro d hd
    rw [hget b hb, hd]
    rfl
  · intro d hd
    rcases hd with hd | hd <;> rw [hget b hb, hd] <;> rfl
  · intro j hj
    rcases hj with hj | hj <;> rw [hget b hb, hj] <;> rfl
  · intro d1 d2 h
    have h2 := congrArg (fun j => pyGet j "error") h
    have h3 : Json.str "UnicodeDecodeError" = Json.str "JSONDecodeError" := h2
    have h4 := Json.str.inj h3
    exact absurd h4 (by decide)
  · intro j d hj
    constructor
    · intro he
      rw [he] at hj
      exact Bool.noConfusion hj
    · intro he
      rw [he] at hj
      exact Bool.noConfusion hj

/-- Claim C7 witness: the amended classification at concrete stores of each kind. -/
theorem c7_amended_witness :
    c7UniState.store promptsKey = RowResult.val (Blob.bytes (Except.error "bad byte")) ∧
    get_json_value_for_key c7UniState promptsKey = uniErrDict "bad byte" promptsKey ∧
    (∀ d1 d2, uniErrDict d1 promptsKey ≠ jsonErrDict d2 promptsKey) := by
  have h := c7_amended_failure_classification c7UniState promptsKey
    (Blob.bytes (Except.error "bad byte")) rfl rfl
  exact ⟨rfl, h.1 "bad byte" rfl, h.2.2.2.1⟩

/-- Claim C1: when the metadata blob decodes successfully, `query_all_chat_data` returns
exactly one entry per descriptor that carries both a `composerId` and a `name`; an entry
whose detail fetch failed is still present, with its `error` field set (the `error` field
is unset exactly when `session_data` is set); no session passing the filter is omitted. -/
theorem c1_one_entry_per_descriptor (s : DbState) (o : List (String × Json)) (cs : List Json)
    (hconn : s.connActive = true)
    (hmeta : get_json_value_for_key s aichatQueryKey = Json.obj o)
    (herr : Json.hasKeyB (Json.obj o) "error" = false)
    (hac : Json.find? (Json.obj o) "allComposers" = some (Json.arr cs))
    (hobj : cs.all Json.isObj = true) :
    ∃ es, (query_all_chat_data s).1 = Json.arr es ∧
      es.length = (cs.filter composerQualifies).length ∧
      ∀ e ∈ es, pyGet e "error" = Json.null ↔ pyGet e "session_data" ≠ Json.null := by
  have hm := metadata_success s o cs hconn hmeta herr hac hobj
  have hq := query_body_meta_list s _ hm
  have hqa : (query_all_chat_data s).1 = query_body s := by
    unfold query_all_chat_data
    rw [if_pos hconn]
  refine ⟨_, by rw [hqa, hq], ?_, ?_⟩
  · simp
  · intro e he
    simp only [List.mem_map] at he
    obtain ⟨m, _, rfl⟩ := he
    exact chatEntry_err_iff s m

/-- Claim C1 witness: the statement at the concrete store `wState` (two descriptors, one
qualifying). -/
theorem c1_witness :
    wState.connActive = true ∧
    get_json_value_for_key wState aichatQueryKey = Json.obj wMetaFields ∧
    Json.hasKeyB (Json.obj wMetaFields) "error" = false ∧
    Json.find? (Json.obj wMetaFields) "allComposers" =
      some (Json.arr [wComposerA, wComposerB]) ∧
    ([wComposerA, wComposerB].all Json.isObj = true) ∧
    ∃ es, (query_all_chat_data wState).1 = Json.arr es ∧
      es.length = ([wComposerA, wComposerB].filter composerQualifies).length ∧
      ∀ e ∈ es, pyGet e "error" = Json.null ↔ pyGet e "session_data" ≠ Json.null :=
  ⟨rfl, rfl, rfl, rfl, rfl,
    c1_one_entry_per_descriptor wState wMetaFields [wComposerA, wComposerB]
      rfl rfl rfl rfl rfl⟩

/-- Claim C6: on a successfully decoded metadata blob, the catalog output is exactly the
descriptor list of the composers carrying both fields, and — when the two fields hold
strings or are absent — a composer qualifies precisely when both fields are non-empty
strings; entries missing either field are dropped without erroring the rest. -/
theorem c6_descriptor_filter (s : DbState) (o : List (String × Json)) (cs : List Json)
    (hconn : s.connActive = true)
    (hmeta : get_json_value_for_key s aichatQueryKey = Json.obj o)
    (herr : Json.hasKeyB (Json.obj o) "error" = false)
    (hac : Json.find? (Json.obj o) "allComposers" = some (Json.arr cs))
    (hobj : cs.all Json.isObj = true)
    (hstr : ∀ c ∈ cs,
      ((∃ t, pyGet c "composerId" = Json.str t) ∨ pyGet c "composerId" = Json.null) ∧
      ((∃ u, pyGet c "name" = Json.str u) ∨ pyGet c "name" = Json.null)) :
    get_all_chat_sessions_metadata s =
      Json.arr ((cs.filter composerQualifies).map mkSessionMeta) ∧
    ∀ c ∈ cs, (composerQualifies c = true ↔
      (∃ t, pyGet c "composerId" = Json.str t ∧ t ≠ "") ∧
      (∃ u, pyGet c "name" = Json.str u ∧ u ≠ "")) := by
  refine ⟨metadata_success s o cs hconn hmeta herr hac hobj, ?_⟩
  intro c hc
  obtain ⟨hcid, hname⟩ := hstr c hc
  unfold composerQualifies
  rw [Bool.and_eq_true]
  constructor
  · rintro ⟨h1, h2⟩
    constructor
    · rcases hcid with ⟨t, ht⟩ | hn
      · refine ⟨t, ht, ?_⟩
        rw [ht] at h1
        simpa [Json.truthy] using h1
      · rw [hn] at h1
        simp [Json.truthy] at h1
    · rcases hname with ⟨u, hu⟩ | hn
      · refine ⟨u, hu, ?_⟩
        rw [hu] at h2
        simpa [Json.truthy] using h2
      · rw [hn] at h2
        simp [Json.truthy] at h2
  · rintro ⟨⟨t, ht, htne⟩, ⟨u, hu, hune⟩⟩
    rw [ht, hu]
    simp [Json.truthy, htne, hune]

/-- Claim C6 witness: the statement at the concrete store `wState`, where composer `a`
carries both fields and composer `b` lacks a title. -/
theorem c6_witness :
    wState.connActive = true ∧
    get_json_value_for_key wState aichatQueryKey = Json.obj wMetaFields ∧
    composerQualifies wComposerA = true ∧
    composerQualifies wComposerB = false ∧
    (get_all_chat_sessions_metadata wState =
      Json.arr (([wComposerA, wComposerB].filter composerQualifies).map mkSessionMeta) ∧
     ∀ c ∈ [wComposerA, wComposerB], (composerQualifies c = true ↔
       (∃ t, pyGet c "composerId" = Json.str t ∧ t ≠ "") ∧
       (∃ u, pyGet c "name" = Json.str u ∧ u ≠ ""))) := by
  refine ⟨rfl, rfl, rfl, rfl, ?_⟩
  have hstr : ∀ c ∈ [wComposerA, wComposerB],
      ((∃ t, pyGet c "composerId" = Json.str t) ∨ pyGet c "composerId" = Json.null) ∧
      ((∃ u, pyGet c "name" = Json.str u) ∨ pyGet c "name" = Json.null) := by
    intro c hc
    simp only [List.mem_cons, List.mem_singleton, List.not_mem_nil, or_false] at hc
    rcases hc with rfl | rfl
    · exact ⟨Or.inl ⟨"a", rfl⟩, Or.inl ⟨"Foo", rfl⟩⟩
    · exact ⟨Or.inl ⟨"b", rfl⟩, Or.inr rfl⟩
  exact c6_descriptor_filter wState wMetaFields [wComposerA, wComposerB]
    rfl rfl rfl rfl rfl hstr

/-- Claim C8: the sessions in the assembled output appear in exactly the order in which
their descriptors appear in the blob's `allComposers` list: the `composerId` sequence of
the output equals the `composerId` sequence of the qualifying composers, unsorted. -/
theorem c8_catalog_order_preserved (s : DbState) (o : List (String × Json)) (cs : List Json)
    (hconn : s.connActive = true)
    (hmeta : get_json_value_for_key s aichatQueryKey = Json.obj o)
    (herr : Json.hasKeyB (Json.obj o) "error" = false)
    (hac : Json.find? (Json.obj o) "allComposers" = some (Json.arr cs))
    (hobj : cs.all Json.isObj = true) :
    ∃ es, (query_all_chat_data s).1 = Json.arr es ∧
      es.map (fun e => pyGet e "composerId") =
        (cs.filter composerQualifies).map (fun c => pyGet c "composerId") := by
  have hm := metadata_success s o cs hconn hmeta herr hac hobj
  have hq := query_body_meta_list s _ hm
  have hqa : (query_all_chat_data s).1 = query_body s := by
    unfold query_all_chat_data
    rw [if_pos hconn]
  refine ⟨_, by rw [hqa, hq], ?_⟩
  rw [List.map_map, List.map_map]
  exact List.map_congr_left (fun c _ => rfl)

/-- Claim C8 witness: the statement at the concrete store `wState`. -/
theorem c8_witness :
    wState.connActive = true ∧
    get_json_value_for_key wState aichatQueryKey = Json.obj wMetaFields ∧
    ∃ es, (query_all_chat_data wState).1 = Json.arr es ∧
      es.map (fun e => pyGet e "composerId") =
        ([wComposerA, wComposerB].filter composerQualifies).map
          (fun c => pyGet c "composerId") :=
  ⟨rfl, rfl,
    c8_catalog_order_preserved wState wMetaFields [wComposerA, wComposerB]
      rfl rfl rfl rfl rfl⟩

/-- Claim C2: for every session, when every contributing generation element carries a
timestamp the reconstructed turns are non-decreasing in timestamp; when timestamps are
partially missing the turns follow original array order; and the turn order is a
deterministic function of the input arrays. -/
theorem c2_turn_ordering (cid : String) (pl gl : List Json) :
    (allTimestamped cid gl = true →
      (reconstruct_turns cid pl gl).Pairwise
        (fun t u => jsonToInt (pyGet t "timestamp") ≤ jsonToInt (pyGet u "timestamp"))) ∧
    (allTimestamped cid gl = false →
      reconstruct_turns cid pl gl = array_order_turns cid pl gl) ∧
    (∀ pl2 gl2, pl = pl2 → gl = gl2 →
      reconstruct_turns cid pl gl = reconstruct_turns cid pl2 gl2) := by
  refine ⟨?_, ?_, ?_⟩
  · intro hall
    unfold reconstruct_turns
    rw [if_pos hall]
    rw [List.pairwise_map]
    have hs := List.sorted_insertionSort turnLe (pairedElems cid pl gl)
    refine hs.imp ?_
    intro a b h
    show tsOf a.2.2 ≤ tsOf b.2.2
    rcases h with h | ⟨h, _⟩
    · exact le_of_lt h
    · exact le_of_eq h
  · intro hf
    unfold reconstruct_turns array_order_turns
    rw [if_neg (by simp [hf])]
  · intro pl2 gl2 h1 h2
    rw [h1, h2]

/-- Claim C2 witness: the statement at a concrete session with two timestamped
generations arriving out of timestamp order. -/
theorem c2_witness :
    allTimestamped "a" [c2Gen, c2Gen2] = true ∧
    ((allTimestamped "a" [c2Gen, c2Gen2] = true →
      (reconstruct_turns "a" [c2Prompt, c2Prompt] [c2Gen, c2Gen2]).Pairwise
        (fun t u => jsonToInt (pyGet t "timestamp") ≤ jsonToInt (pyGet u "timestamp"))) ∧
     (allTimestamped "a" [c2Gen, c2Gen2] = false →
      reconstruct_turns "a" [c2Prompt, c2Prompt] [c2Gen, c2Gen2] =
        array_order_turns "a" [c2Prompt, c2Prompt] [c2Gen, c2Gen2]) ∧
     (∀ pl2 gl2, [c2Prompt, c2Prompt] = pl2 → [c2Gen, c2Gen2] = gl2 →
      reconstruct_turns "a" [c2Prompt, c2Prompt] [c2Gen, c2Gen2] =
        reconstruct_turns "a" pl2 gl2)) :=
  ⟨rfl, c2_turn_ordering "a" [c2Prompt, c2Prompt] [c2Gen, c2Gen2]⟩

/-- Claim C9: over an unchanged store, running `query_all_chat_data` again — from the
instance state in which the first run left the connection — returns the same value: the
output is a function of the store contents alone. -/
theorem c9_requery_same_result (s : DbState) :
    (query_all_chat_data ((query_all_chat_data s).2)).1 = (query_all_chat_data s).1 := by
  unfold query_all_chat_data
  by_cases h1 : s.connActive
  · simp [h1]
  · by_cases h2 : s.connectable
    · simp [h1, h2]
    · simp [h1, h2]

/-- Claim C9 witness: the statement at the concrete store `wState`. -/
theorem c9_witness :
    (query_all_chat_data ((query_all_chat_data wState).2)).1 =
      (query_all_chat_data wState).1 :=
  c9_requery_same_result wState

/-- Claim C10: `query_all_chat_data` always returns a list, never a bare dict: a single
error entry on connection failure, a single error entry on metadata fetch failure, the
empty list on falsy metadata, and otherwise per-session entries in which `session_data`
and `error` are never both set. -/
theorem c10_result_list_shape (s : DbState) :
    (∃ es, (query_all_chat_data s).1 = Json.arr es) ∧
    (s.connActive = false ∧ s.connectable = false →
      (query_all_chat_data s).1 = Json.arr [connFailEntry s] ∧
      isErrDict (connFailEntry s) = true) ∧
    (isErrDict (get_all_chat_sessions_metadata s) = true →
      query_body s = Json.arr [metaFailEntry s (get_all_chat_sessions_metadata s)] ∧
      isErrDict (metaFailEntry s (get_all_chat_sessions_metadata s)) = true) ∧
    ((get_all_chat_sessions_metadata s).truthy = false → query_body s = Json.arr []) ∧
    (∀ es, (query_all_chat_data s).1 = Json.arr es → ∀ e ∈ es,
      ¬(pyGet e "session_data" ≠ Json.null ∧ pyGet e "error" ≠ Json.null)) := by
  refine ⟨?_, ?_, ?_, ?_, ?_⟩
  · unfold query_all_chat_data
    by_cases h1 : s.connActive
    · simpa [h1] using query_body_is_list s
    · by_cases h2 : s.connectable
      · simpa [h1, h2] using query_body_is_list { s with connActive := true }
      · exact ⟨[connFailEntry s], by simp [h1, h2]⟩
  · rintro ⟨hA, hB⟩
    unfold query_all_chat_data
    rw [if_neg (by simp [hA]), if_neg (by simp [hB])]
    exact ⟨rfl, rfl⟩
  · intro h
    unfold query_body
    rw [if_pos h]
    exact ⟨rfl, rfl⟩
  · intro h
    have hne : isErrDict (get_all_chat_sessions_metadata s) = false := by
      cases he : isErrDict (get_all_chat_sessions_metadata s)
      · rfl
      · rw [isErrDict_truthy _ he] at h
        exact absurd h (by simp)
    unfold query_body
    rw [if_neg (by simp [hne]), if_neg (by simp [h])]
  · intro es hq e he
    rw [Classical.not_and_iff_or_not_not]
    have main : ∀ (t : DbState) (fs : List Json), query_body t = Json.arr fs → e ∈ fs →
        pyGet e "session_data" = Json.null ∨ pyGet e "error" = Json.null := by
      intro t fs h1 h2
      exact query_body_entry_excl t fs h1 e h2
    have hcase : pyGet e "session_data" = Json.null ∨ pyGet e "error" = Json.null := by
      unfold query_all_chat_data at hq
      by_cases h1 : s.connActive
      · rw [if_pos h1] at hq
        exact main s es hq he
      · rw [if_neg h1] at hq
        by_cases h2 : s.connectable
        · rw [if_pos h2] at hq
          exact main { s with connActive := true } es hq he
        · rw [if_neg h2] at hq
          have h3 : [connFailEntry s] = es := Json.arr.inj hq
          subst h3
          simp only [List.mem_singleton] at he
          subst he
          exact Or.inl rfl
    rcases hcase with h | h
    · exact Or.inl (by simpa using h)
    · exact Or.inr (by simpa using h)

/-- Claim C10 witness: the statement at the concrete store `wState`. -/
theorem c10_witness :
    (∃ es, (query_all_chat_data wState).1 = Json.arr es) ∧
    (∀ es, (query_all_chat_data wState).1 = Json.arr es → ∀ e ∈ es,
      ¬(pyGet e "session_data" ≠ Json.null ∧ pyGet e "error" ≠ Json.null)) :=
  ⟨(c10_result_list_shape wState).1, (c10_result_list_shape wState).2.2.2.2⟩
